import Mathlib

/-!
# Verification of the ClickHouse → Postgres replication pipeline

A shallow embedding of the replication program (config.go, batch.go, main.go)
and proofs checking the natural-language specification against it.

Modelling conventions:
* Go strings are `String`, Go slices are `List`.
* `time.Time` is modelled by `GoTime` (calendar fields only, which is all the
  program inspects: `IsZero` and `Format(time.DateTime)`).
* Database effects are modelled by explicit environments: a `Conn` carries the
  snapshot row set of the extraction query together with an injected failure
  schedule, and the load/merge paths carry an `Option String` per fallible
  statement (`none` = the statement succeeds, `some e` = it fails with error
  message `e`).  Log output is modelled as a returned list of messages.
-/

namespace Replication


/-! ## Data model (config.go) -/

/-- Calendar model of Go's `time.Time`, sufficient for `IsZero` and
`Format(time.DateTime)` as used by the program. -/
structure GoTime where
  year : Nat
  month : Nat
  day : Nat
  hour : Nat
  minute : Nat
  second : Nat
deriving Repr, DecidableEq

/-- Go's zero time: January 1, year 1, 00:00:00. -/
def GoTime.zero : GoTime := ⟨1, 1, 1, 0, 0, 0⟩

/-- `time.Time.IsZero`. -/
def GoTime.isZero (t : GoTime) : Bool := t = GoTime.zero

/-- Zero-pad a number to two digits, as Go's `Format` does for months, days,
hours, minutes and seconds. -/
def pad2 (n : Nat) : String := if n < 10 then "0" ++ toString n else toString n

/-- Zero-pad a year to four digits, as Go's `Format` does for layout `2006`. -/
def pad4 (n : Nat) : String :=
  if n < 10 then "000" ++ toString n
  else if n < 100 then "00" ++ toString n
  else if n < 1000 then "0" ++ toString n
  else toString n

/-- `t.Format(time.DateTime)`, layout `"2006-01-02 15:04:05"`. -/
def GoTime.formatDateTime (t : GoTime) : String :=
  pad4 t.year ++ "-" ++ pad2 t.month ++ "-" ++ pad2 t.day ++ " " ++
  pad2 t.hour ++ ":" ++ pad2 t.minute ++ ":" ++ pad2 t.second

/-- `Column` from config.go. -/
structure Column where
  source : String
  destination : String
  type : String
  primary : Bool
deriving Repr, DecidableEq

/-- `Cursor` from config.go. -/
structure Cursor where
  column : String
  lastSync : GoTime
deriving Repr, DecidableEq

/-- `Index` from config.go. -/
structure Index where
  name : String
  columns : List String
deriving Repr, DecidableEq

/-- `Table` from config.go. -/
structure Table where
  source : String
  destination : String
  indexes : List Index
  columns : List Column
  cursor : Cursor
deriving Repr, DecidableEq

/-- `Table.GetSourceColumns` from config.go. -/
def Table.GetSourceColumns (t : Table) : List String :=
  t.columns.map Column.source

/-- `Table.GetDestinationColumns` from config.go. -/
def Table.GetDestinationColumns (t : Table) : List String :=
  t.columns.map Column.destination

/-- `Table.GetPrimaryKey` from config.go: destination names of the columns
flagged primary, in declaration order. -/
def Table.GetPrimaryKey (t : Table) : List String :=
  (t.columns.filter Column.primary).map Column.destination

/-! ## Extraction query construction (batch.go lines 15–23) -/

/-- The extraction query built at the top of `Batching`:
`SELECT <source columns> FROM <source> FINAL`, plus
`WHERE <cursor column> > '<last sync formatted>'` when a cursor column is
configured and the last-sync time is non-zero. -/
def buildQuery (table : Table) : String :=
  let query := "SELECT " ++ String.intercalate ", " table.GetSourceColumns ++
    " FROM " ++ table.source ++ " FINAL"
  if table.cursor.column != "" && !table.cursor.lastSync.isZero then
    query ++ " WHERE " ++ table.cursor.column ++ " > '" ++
      table.cursor.lastSync.formatDateTime ++ "'"
  else
    query

/-! ## Batching extractor (batch.go lines 25–79)

The source store is modelled as a consistent snapshot: `rows` is the full
result of the extraction query in `ORDER BY <pk>` order, so the count query
returns `rows.length` and the page query at `OFFSET o LIMIT b` returns
`(rows.drop o).take b`.  Failures are injected by the environment:
`countFail` makes the count query fail, and `failPage = some (k, e)` makes
the `k`-th issued page query (or equivalently the scan of its rows) fail
with message `e` — every error path in the Go code behaves identically,
returning `(0, err)` at once.

The Go code communicates batches through the `onBatch` callback; the model
returns the list of batches delivered to `onBatch` alongside the `(total,
err)` return pair.  The `while total < count` loop does not terminate in Go
when the snapshot runs dry before `count` is reached (impossible in the
snapshot model from the initial state); the embedding makes this explicit
with the `diverges` outcome, also used when the iteration-bounding fuel
(always sufficient from the initial state) runs out. -/

/-- The source connection: the snapshot result set of the extraction query
plus an injected failure schedule. -/
structure Conn (α : Type) where
  rows : List α
  countFail : Option String
  failPage : Option (Nat × String)

/-- Outcome of one extraction run: the batches delivered to `onBatch`, the
returned total, and the returned error (`none` = nil). -/
inductive BatchOutcome (α : Type) where
  | result (delivered : List (List α)) (total : Nat) (err : Option String)
  | diverges
deriving Repr, DecidableEq

/-- The page query `<query> ORDER BY <pk> LIMIT batchSize OFFSET offset`
(batch.go line 44), including the scan of its rows: fails when the failure
schedule targets this page. -/
def Conn.pageFetch (conn : Conn α) (page offset batchSize : Nat) :
    Except String (List α) :=
  match conn.failPage with
  | some (k, e) =>
      if page = k then .error e
      else .ok ((conn.rows.drop offset).take batchSize)
  | none => .ok ((conn.rows.drop offset).take batchSize)

/-- The `for total < int(count)` loop of `Batching` (batch.go lines 43–76).
State: current page index, `offset`, `total`, and the batches delivered so
far.  An empty page with no failure scheduled ahead makes the Go loop spin
forever (`total` stops growing); the embedding returns `diverges` there. -/
def batchingLoop (conn : Conn α) (batchSize : Nat) :
    Nat → Nat → Nat → Nat → List (List α) → BatchOutcome α
  | 0, _, _, _, _ => .diverges
  | fuel + 1, page, offset, total, delivered =>
    if total < conn.rows.length then
      match conn.pageFetch page offset batchSize with
      | .error e => .result delivered 0 (some e)
      | .ok batch =>
        if 0 < batch.length then
          batchingLoop conn batchSize fuel (page + 1) (offset + batchSize)
            (total + batch.length) (delivered ++ [batch])
        else
          match conn.failPage with
          | some (k, e) =>
              if page < k then .result delivered 0 (some e) else .diverges
          | none => .diverges
    else
      .result delivered total none

/-- `Batching` (batch.go lines 14–79): count query, then the paginated loop.
In the snapshot model the count query returns `conn.rows.length`; each
successful page delivers at least one row, so `rows.length + 1` bounds the
number of loop iterations. -/
def Batching (conn : Conn α) (batchSize : Nat) : BatchOutcome α :=
  match conn.countFail with
  | some e => .result [] 0 (some e)
  | none => batchingLoop conn batchSize (conn.rows.length + 1) 0 0 0 []

/-! ### The chunk decomposition the spec describes -/

/-- Auxiliary for `specChunks`, structurally recursive on a fuel bound. -/
def specChunksAux (batchSize : Nat) : Nat → List α → List (List α)
  | _, [] => []
  | 0, _ :: _ => []
  | fuel + 1, x :: xs =>
      (x :: xs).take batchSize ::
        specChunksAux batchSize fuel ((x :: xs).drop batchSize)

/-- The list split into consecutive chunks of `batchSize` rows, the last
chunk possibly shorter. -/
def specChunks (batchSize : Nat) (l : List α) : List (List α) :=
  specChunksAux batchSize l.length l

/-! ## Merge/upsert engine (main.go, `MoveTemporaryTable`)

`MoveTemporaryTable` builds one SQL statement from the table's column
configuration, executes it, logs a failure, and returns.  The statement
execution is modelled by an `ExecEnv` saying whether the single `Exec` call
fails; the function's observable behaviour is the statement text it executes,
the error messages it logs, and the Go error value it returns. -/

/-- The `<col> = EXCLUDED.<col>` assignment list built by the loop over
`table.GetDestinationColumns()` at the top of `MoveTemporaryTable`. -/
def mergeAssignments (table : Table) : List String :=
  table.GetDestinationColumns.map fun column =>
    column ++ " = EXCLUDED." ++ column

/-- The SQL text passed to `conn.Exec` by `MoveTemporaryTable` (raw Go string
with its literal newlines and tabs). -/
def mergeQuery (table : Table) (tableName : String) : String :=
  "\n\t\tINSERT INTO " ++ table.destination ++
  "\n\t\tSELECT DISTINCT ON (" ++ String.intercalate ", " table.GetPrimaryKey ++
  ") * FROM " ++ tableName ++
  "\n\t\tON CONFLICT (" ++ String.intercalate ", " table.GetPrimaryKey ++
  ") DO UPDATE SET\n\t\t" ++ String.intercalate ", " (mergeAssignments table) ++
  ";\n\t"

/-- Whether executing the merge statement succeeds (`none`) or fails with a
given error message. -/
structure ExecEnv where
  execError : Option String
deriving Repr, DecidableEq

/-- Observable behaviour of one `MoveTemporaryTable` call. -/
structure MoveResult where
  executed : String
  loggedErrors : List String
  returned : Option String
deriving Repr, DecidableEq

/-- `MoveTemporaryTable` from main.go: builds the upsert statement, executes
it, logs a failure if any, and falls through to `return nil` in every case —
the `err` from `Exec` is logged but never returned. -/
def MoveTemporaryTable (table : Table) (env : ExecEnv) (tableName : String) :
    MoveResult :=
  let q := mergeQuery table tableName
  match env.execError with
  | some e =>
      { executed := q
        loggedErrors := ["Failed to move temporary table: " ++ e]
        returned := none }
  | none =>
      { executed := q
        loggedErrors := []
        returned := none }

/-- A table with no cursor configured, used to evaluate the theorems on
concrete input. -/
def plainTable : Table :=
  { source := "products"
    destination := "products_pg"
    indexes := []
    columns := [⟨"id", "id", "bigint", true⟩, ⟨"name", "name", "text", false⟩]
    cursor := ⟨"", GoTime.zero⟩ }

/-- A table with a cursor column and a non-zero last-sync time. -/
def cursorTable : Table :=
  { source := "events"
    destination := "events_pg"
    indexes := []
    columns := [⟨"id", "id", "bigint", true⟩, ⟨"updated_at", "updated_at", "timestamp", false⟩]
    cursor := ⟨"updated_at", ⟨2024, 5, 1, 12, 30, 5⟩⟩ }

/-- A table that declares no primary-key column. -/
def noPkTable : Table :=
  { source := "logs"
    destination := "logs_pg"
    indexes := []
    columns := [⟨"msg", "msg", "text", false⟩, ⟨"level", "level", "text", false⟩]
    cursor := ⟨"", GoTime.zero⟩ }

/-! ## Staging loader / per-batch worker (main.go, `SynchronizeTable` body)

Each batch is processed by one worker goroutine: acquire a pooled
connection, create a staging table (`MakeTemporaryTable`), bulk-copy the
batch into it (`CopyFrom`), then merge (`MoveTemporaryTable`).  Each step's
success or failure is injected through a `BatchEnv`.  The model records
which steps were reached, mirroring the worker's control flow: an acquire
or staging-creation failure returns early, a copy failure is only logged and
the merge still runs. -/

/-- Failure injection for the four fallible steps of one batch worker. -/
structure BatchEnv where
  acquireError : Option String
  makeTempError : Option String
  copyError : Option String
  mergeExecError : Option String
deriving Repr, DecidableEq

/-- Observable behaviour of one batch worker. -/
structure BatchRunResult where
  copyAttempted : Bool
  mergeAttempted : Bool
  loggedErrors : List String
deriving Repr, DecidableEq

/-- The worker goroutine body from `SynchronizeTable` (main.go): early
`return` after a failed acquire or a failed staging-table creation; a failed
`CopyFrom` is logged without returning, so control falls through to the
merge call.  The merge itself always returns nil, so the worker's final
`if err != nil` log never fires; the merge's own internal failure log is
included. -/
def processBatch (table : Table) (env : BatchEnv) (tableName : String) :
    BatchRunResult :=
  match env.acquireError with
  | some e => ⟨false, false, ["Failed to acquire connection: " ++ e]⟩
  | none =>
    match env.makeTempError with
    | some e => ⟨false, false, ["Failed to make temporary table: " ++ e]⟩
    | none =>
      let copyLogs :=
        match env.copyError with
        | some e => ["Failed to insert batch: " ++ e]
        | none => []
      let moveResult := MoveTemporaryTable table ⟨env.mergeExecError⟩ tableName
      ⟨true, true, copyLogs ++ moveResult.loggedErrors⟩

/-- The `for batch := range batches` dispatch: every batch gets its own
worker, independent of the outcomes of the other batches. -/
def runBatches (table : Table) (envs : List BatchEnv) (tableName : String) :
    List BatchRunResult :=
  envs.map fun env => processBatch table env tableName

/-! ## Orchestrator (main.go, `main` table loop and `SynchronizeTable`) -/

/-- Failure injection and clock for one table's run. -/
structure TableRunEnv where
  createTableError : Option String
  addPrimaryKeyError : Option String
  extractError : Option String
  batchEnvs : List BatchEnv
  now : GoTime
deriving Repr, DecidableEq

/-- `CreatePostgresTable` (main.go): the `CREATE TABLE IF NOT EXISTS`
failure is returned (table-fatal); an `ADD PRIMARY KEY` failure — attempted
only when the table declares a primary key — is logged as a warning and not
returned.  Returns (Go error value, warning log). -/
def CreatePostgresTable (table : Table) (env : TableRunEnv) :
    Option String × List String :=
  match env.createTableError with
  | some e => (some e, [])
  | none =>
    match env.addPrimaryKeyError with
    | some e =>
        if table.GetPrimaryKey.length > 0 then
          (none, ["Failed to add primary key: " ++ e])
        else (none, [])
    | none => (none, [])

/-- Observable behaviour of one `SynchronizeTable` call. -/
structure SyncResult where
  returned : Option String
  logged : List String
deriving Repr, DecidableEq

/-- `SynchronizeTable` (main.go): returns the schema-creation error if any;
otherwise the extractor runs in a background goroutine whose error is only
logged (`Failed to batch`), the batch workers log their own failures, and
the function returns nil. -/
def SynchronizeTable (table : Table) (env : TableRunEnv) : SyncResult :=
  match (CreatePostgresTable table env).1 with
  | some e => { returned := some e, logged := [] }
  | none =>
    let extractLogs :=
      match env.extractError with
      | some e => ["Failed to batch: " ++ e]
      | none => []
    let workerResults := runBatches table env.batchEnvs (table.destination ++ "_tmp")
    { returned := none
      logged := extractLogs ++ (workerResults.map BatchRunResult.loggedErrors).flatten }

/-- The per-table body of the `main` loop, restricted to its cursor effect:
on a `SynchronizeTable` error the loop `continue`s and the stored cursor is
untouched; otherwise, when a cursor column is configured, the cursor is set
to `time.Now()` — the wall-clock time at table-run completion. -/
def runTableStep (table : Table) (env : TableRunEnv) : GoTime :=
  match (SynchronizeTable table env).returned with
  | some _ => table.cursor.lastSync
  | none =>
      if table.cursor.column != "" then env.now else table.cursor.lastSync

/-- The `main` loop over all configured tables: every table is processed,
whatever the outcomes of the previous ones; returns each table's final
cursor value. -/
def mainLoop (tables : List Table) (envs : List TableRunEnv) : List GoTime :=
  (tables.zip envs).map fun p => runTableStep p.1 p.2

/-! ## Row type inferer (batch.go, `GetScannerValues`) -/

/-- The shape of a driver-reported scan type, as `reflect` classifies it. -/
inductive GoType where
  | scalar (name : String)
  | ptr (inner : GoType)
  | slice (elem : GoType)
  | mapT (key value : GoType)
deriving Repr, DecidableEq

/-- `reflect.Kind`, restricted to the cases the code distinguishes. -/
inductive GoKind where
  | ptrKind
  | sliceKind
  | mapKind
  | scalarKind
deriving Repr, DecidableEq

/-- `reflect.ValueOf(v).Elem().Kind()` of the freshly allocated zero value:
the kind of the scan type itself. -/
def GoType.kind : GoType → GoKind
  | .ptr _ => .ptrKind
  | .slice _ => .sliceKind
  | .mapT _ _ => .mapKind
  | .scalar _ => .scalarKind

/-- `reflect.Type.Elem()`: the pointed-to / element type.  Only invoked by
the code under a pointer-kind or slice-kind guard. -/
def GoType.elem : GoType → GoType
  | .ptr t => t
  | .slice t => t
  | t => t

/-- A prototype value as produced by the inferer.  Go distinguishes the nil
zero value of a slice/map type from the empty slice/map `reflect.MakeSlice` /
`reflect.MakeMap` produce. -/
inductive GoValue where
  | scalarZero (name : String)
  | nilPtr (inner : GoType)
  | nilSlice (elem : GoType)
  | nilMap (key value : GoType)
  | emptySlice (elem : GoType)
  | emptyMap (key value : GoType)
deriving Repr, DecidableEq

/-- The zero value of a type, as `reflect.New(t)` points to. -/
def GoType.zeroValue : GoType → GoValue
  | .scalar s => .scalarZero s
  | .ptr t => .nilPtr t
  | .slice t => .nilSlice t
  | .mapT k v => .nilMap k v

/-- `reflect.MakeSlice(t, 0, 0)`: the empty slice of slice type `t`. -/
def GoType.makeEmptySlice : GoType → GoValue
  | .slice t => .emptySlice t
  | t => t.zeroValue

/-- `reflect.MakeMap(t)`: the empty map of map type `t`. -/
def GoType.makeEmptyMap : GoType → GoValue
  | .mapT k v => .emptyMap k v
  | t => t.zeroValue

/-- `GetScannerValues` (batch.go lines 82–109): one prototype per column —
start from the zero value of the scan type, then the three kind-guarded
reassignments (pointer: zero of the unwrapped inner type; slice: empty slice
of the scan type; map: empty map of the scan type).  The uniform
`reflect.New` pointer wrapper around each prototype is elided. -/
def GetScannerValues (columnTypes : List GoType) : List GoValue :=
  columnTypes.map fun t =>
    let v0 := t.zeroValue
    let k := t.kind
    let v1 := if k = GoKind.ptrKind then t.elem.zeroValue else v0
    let v2 := if k = GoKind.sliceKind then t.makeEmptySlice else v1
    let v3 := if k = GoKind.mapKind then t.makeEmptyMap else v2
    v3

/-- The per-column prototype exactly as the specification words it: unwrap
an optional/nullable one level to the inner type's zero value, an empty
sequence for a sequence type, an empty mapping for a mapping type, and the
scalar zero value otherwise. -/
def protoSpec : GoType → GoValue
  | .ptr inner => inner.zeroValue
  | .slice e => .emptySlice e
  | .mapT k v => .emptyMap k v
  | .scalar s => .scalarZero s

/-- A batch environment whose bulk copy fails. -/
def copyFailBatchEnv : BatchEnv := ⟨none, none, some "broken pipe", none⟩

/-- A batch environment whose staging-table creation fails. -/
def makeTempFailBatchEnv : BatchEnv :=
  ⟨none, some "out of shared memory", none, none⟩

/-- A table-run environment whose extraction fails (in the background
goroutine); schema creation succeeds. -/
def extractFailEnv : TableRunEnv :=
  { createTableError := none
    addPrimaryKeyError := none
    extractError := some "connection timeout"
    batchEnvs := []
    now := ⟨2024, 6, 1, 9, 0, 0⟩ }

/-- A table-run environment whose `CREATE TABLE` fails. -/
def schemaFailEnv : TableRunEnv :=
  { createTableError := some "permission denied"
    addPrimaryKeyError := none
    extractError := none
    batchEnvs := []
    now := ⟨2024, 6, 1, 9, 0, 0⟩ }

/-- A fully successful table-run environment. -/
def successEnv : TableRunEnv :=
  { createTableError := none
    addPrimaryKeyError := none
    extractError := none
    batchEnvs := []
    now := ⟨2024, 6, 1, 9, 0, 0⟩ }

/-! ## Theorems

Helper lemmas first, then one theorem per claim of the specification,
each with its witness or counterexample. -/

/-- C3: the extraction query is `SELECT <source columns> FROM <source table>
FINAL`, and it carries a `WHERE <cursorColumn> > <lastSyncValue>` filter (with
the timestamp rendered in the fixed `2006-01-02 15:04:05` layout) exactly when a
cursor column is configured and the last-sync value is non-zero; otherwise the
query has no filter. -/
theorem extraction_query_cursor_filter (t : Table) :
    (t.cursor.column = "" ∨ t.cursor.lastSync = GoTime.zero →
      buildQuery t = "SELECT " ++ String.intercalate ", " t.GetSourceColumns ++
        " FROM " ++ t.source ++ " FINAL") ∧
    (t.cursor.column ≠ "" ∧ t.cursor.lastSync ≠ GoTime.zero →
      buildQuery t = "SELECT " ++ String.intercalate ", " t.GetSourceColumns ++
        " FROM " ++ t.source ++ " FINAL" ++ " WHERE " ++ t.cursor.column ++
        " > '" ++ t.cursor.lastSync.formatDateTime ++ "'") := by
  constructor
  · intro h
    unfold buildQuery
    rcases h with h | h
    · simp [h]
    · simp [GoTime.isZero, h]
  · rintro ⟨h1, h2⟩
    unfold buildQuery
    simp [GoTime.isZero, h1, h2]

theorem specChunksAux_fuel (batchSize : Nat) (hbs : batchSize ≠ 0) :
    ∀ (fuel : Nat) (l : List α), l.length ≤ fuel →
      specChunksAux batchSize fuel l = specChunks batchSize l := by
  intro fuel
  induction fuel using Nat.strong_induction_on with
  | _ fuel ih =>
    intro l hl
    match fuel, l with
    | fuel, [] => cases fuel <;> rfl
    | 0, x :: xs => simp at hl
    | fuel + 1, x :: xs =>
      have hdrop : ((x :: xs).drop batchSize).length ≤ xs.length := by
        rw [List.length_drop]
        simp only [List.length_cons]
        omega
      have hxs : xs.length ≤ fuel := by
        simpa using hl
      rw [specChunksAux]
      show _ = specChunksAux batchSize (xs.length + 1) (x :: xs)
      rw [specChunksAux]
      rw [ih fuel (Nat.lt_succ_self _) _ (le_trans hdrop hxs),
        ih xs.length (Nat.lt_succ_of_le hxs) _ hdrop]

theorem specChunks_nil (batchSize : Nat) :
    specChunks batchSize ([] : List α) = [] := rfl

/-- Unfolding equation for `specChunks` on a non-empty list. -/
theorem specChunks_cons (batchSize : Nat) (hbs : batchSize ≠ 0)
    (l : List α) (hl : l ≠ []) :
    specChunks batchSize l =
      l.take batchSize :: specChunks batchSize (l.drop batchSize) := by
  match l with
  | x :: xs =>
    rw [specChunks]
    have hlen : (x :: xs).length = xs.length + 1 := rfl
    rw [hlen, specChunksAux]
    rw [specChunksAux_fuel batchSize hbs xs.length]
    rw [List.length_drop]
    simp only [List.length_cons]
    omega

/-- Every chunk concatenates back: each source row lands in exactly one
chunk, in order. -/
theorem specChunks_flatten (batchSize : Nat) (hbs : batchSize ≠ 0)
    (l : List α) : (specChunks batchSize l).flatten = l := by
  suffices h : ∀ (n : Nat) (l : List α), l.length ≤ n →
      (specChunks batchSize l).flatten = l from h l.length l (Nat.le_refl _)
  intro n
  induction n with
  | zero =>
    intro l hl
    rw [List.length_eq_zero.mp (Nat.le_zero.mp hl)]
    rfl
  | succ n ih =>
    intro l hl
    rcases eq_or_ne l [] with rfl | hne
    · rfl
    · rw [specChunks_cons batchSize hbs l hne, List.flatten_cons]
      rw [ih (l.drop batchSize)]
      · exact List.take_append_drop batchSize l
      · rw [List.length_drop]
        have hlp : 0 < l.length := List.length_pos.mpr hne
        have hbp : 0 < batchSize := Nat.pos_of_ne_zero hbs
        omega

/-- Every chunk except possibly the last has exactly `batchSize` rows. -/
theorem specChunks_full (batchSize : Nat) (hbs : batchSize ≠ 0)
    (l : List α) :
    ∀ c ∈ (specChunks batchSize l).dropLast, c.length = batchSize := by
  suffices h : ∀ (n : Nat) (l : List α), l.length ≤ n →
      ∀ c ∈ (specChunks batchSize l).dropLast, c.length = batchSize from
    h l.length l (Nat.le_refl _)
  intro n
  induction n with
  | zero =>
    intro l hl
    rw [List.length_eq_zero.mp (Nat.le_zero.mp hl)]
    intro c hc
    simp [specChunks_nil] at hc
  | succ n ih =>
    intro l hl c hc
    rcases eq_or_ne l [] with rfl | hne
    · simp [specChunks_nil] at hc
    · rw [specChunks_cons batchSize hbs l hne] at hc
      rcases eq_or_ne (specChunks batchSize (l.drop batchSize)) [] with hrest | hrest
      · rw [hrest] at hc
        simp at hc
      · rw [List.dropLast_cons_of_ne_nil hrest] at hc
        rcases List.mem_cons.mp hc with rfl | hc
        · -- the head chunk is full because at least one more chunk follows,
          -- so `l` has more than `batchSize` rows
          have hdrop : l.drop batchSize ≠ [] := by
            intro h0
            rw [h0, specChunks_nil] at hrest
            exact hrest rfl
          have : batchSize < l.length := by
            by_contra hle
            exact hdrop (List.drop_eq_nil_of_le (Nat.le_of_not_lt hle))
          rw [List.length_take]
          omega
        · exact ih (l.drop batchSize)
            (by
              rw [List.length_drop]
              have hlp : 0 < l.length := List.length_pos.mpr hne
              have hbp : 0 < batchSize := Nat.pos_of_ne_zero hbs
              omega) c hc

/-- Every chunk has at most `batchSize` rows and is non-empty. -/
theorem specChunks_bounds (batchSize : Nat) (hbs : batchSize ≠ 0)
    (l : List α) :
    ∀ c ∈ specChunks batchSize l, c.length ≤ batchSize ∧ c ≠ [] := by
  suffices h : ∀ (n : Nat) (l : List α), l.length ≤ n →
      ∀ c ∈ specChunks batchSize l, c.length ≤ batchSize ∧ c ≠ [] from
    h l.length l (Nat.le_refl _)
  intro n
  induction n with
  | zero =>
    intro l hl c hc
    rw [List.length_eq_zero.mp (Nat.le_zero.mp hl)] at hc
    simp [specChunks_nil] at hc
  | succ n ih =>
    intro l hl c hc
    rcases eq_or_ne l [] with rfl | hne
    · simp [specChunks_nil] at hc
    · rw [specChunks_cons batchSize hbs l hne] at hc
      rcases List.mem_cons.mp hc with rfl | hc
      · constructor
        · rw [List.length_take]
          exact min_le_left _ _
        · have hlp : 0 < l.length := List.length_pos.mpr hne
          have hbp : 0 < batchSize := Nat.pos_of_ne_zero hbs
          intro h0
          have hlen0 := congrArg List.length h0
          rw [List.length_take] at hlen0
          simp only [List.length_nil] at hlen0
          omega
      · exact ih (l.drop batchSize)
          (by
            rw [List.length_drop]
            have hlp : 0 < l.length := List.length_pos.mpr hne
            have hbp : 0 < batchSize := Nat.pos_of_ne_zero hbs
            omega) c hc

/-! ### Behaviour of the loop -/

/-- With no failure scheduled, the loop delivers exactly the chunk
decomposition of the remaining rows and returns the row count with a nil
error. -/
theorem batchingLoop_no_fail (conn : Conn α) (batchSize : Nat)
    (hbs : batchSize ≠ 0) (hfp : conn.failPage = none) :
    ∀ (fuel : Nat) (page offset total : Nat) (delivered : List (List α)),
      total + (conn.rows.drop offset).length = conn.rows.length →
      (conn.rows.drop offset).length < fuel →
      batchingLoop conn batchSize fuel page offset total delivered =
        .result (delivered ++ specChunks batchSize (conn.rows.drop offset))
          conn.rows.length none := by
  intro fuel
  induction fuel with
  | zero =>
    intro page offset total delivered htot hfuel
    omega
  | succ fuel ih =>
    intro page offset total delivered htot hfuel
    by_cases hlt : total < conn.rows.length
    · have hrestpos : 0 < (conn.rows.drop offset).length := by omega
      have hrestne : conn.rows.drop offset ≠ [] := by
        intro h0
        rw [h0] at hrestpos
        exact absurd hrestpos (by simp)
      have hbatchpos : 0 < ((conn.rows.drop offset).take batchSize).length := by
        rw [List.length_take]
        have hbp : 0 < batchSize := Nat.pos_of_ne_zero hbs
        omega
      rw [batchingLoop, if_pos hlt]
      simp only [Conn.pageFetch, hfp]
      rw [if_pos hbatchpos]
      have h1 : (total + ((conn.rows.drop offset).take batchSize).length) +
          (conn.rows.drop (offset + batchSize)).length = conn.rows.length := by
        rw [List.length_take, List.length_drop] at *
        rw [List.length_drop]
        have hbp : 0 < batchSize := Nat.pos_of_ne_zero hbs
        omega
      have h2 : (conn.rows.drop (offset + batchSize)).length < fuel := by
        rw [List.length_drop] at *
        have hbp : 0 < batchSize := Nat.pos_of_ne_zero hbs
        omega
      rw [ih (page + 1) (offset + batchSize)
        (total + ((conn.rows.drop offset).take batchSize).length)
        (delivered ++ [(conn.rows.drop offset).take batchSize]) h1 h2]
      rw [specChunks_cons batchSize hbs (conn.rows.drop offset) hrestne]
      rw [List.drop_drop]
      simp [List.append_assoc]
    · have h0 : (conn.rows.drop offset).length = 0 := by omega
      have htoteq : total = conn.rows.length := by omega
      rw [batchingLoop, if_neg hlt]
      rw [List.length_eq_zero.mp h0, specChunks_nil, List.append_nil, htoteq]

/-- With a failure scheduled at a page the loop will reach, the loop delivers
the full batches of the pages before the failing one, then returns `(0, err)`
without retracting them. -/
theorem batchingLoop_fail (conn : Conn α) (batchSize : Nat)
    (hbs : batchSize ≠ 0) (k : Nat) (e : String)
    (hfp : conn.failPage = some (k, e))
    (hk : k * batchSize < conn.rows.length) :
    ∀ (fuel : Nat) (page offset total : Nat) (delivered : List (List α)),
      page ≤ k →
      offset = page * batchSize →
      total + (conn.rows.drop offset).length = conn.rows.length →
      (conn.rows.drop offset).length < fuel →
      batchingLoop conn batchSize fuel page offset total delivered =
        .result (delivered ++
            specChunks batchSize
              ((conn.rows.drop offset).take ((k - page) * batchSize)))
          0 (some e) := by
  intro fuel
  induction fuel with
  | zero =>
    intro page offset total delivered hpk hoff htot hfuel
    omega
  | succ fuel ih =>
    intro page offset total delivered hpk hoff htot hfuel
    have hbp : 0 < batchSize := Nat.pos_of_ne_zero hbs
    have hofflen : offset ≤ k * batchSize := by
      rw [hoff]
      exact Nat.mul_le_mul_right batchSize hpk
    have hlt : total < conn.rows.length := by
      rw [List.length_drop] at htot
      omega
    rw [batchingLoop, if_pos hlt]
    rcases eq_or_ne page k with rfl | hne
    · have hfetch : Conn.pageFetch conn page offset batchSize = .error e := by
        simp [Conn.pageFetch, hfp]
      rw [hfetch]
      dsimp only
      rw [Nat.sub_self, Nat.zero_mul, List.take_zero, specChunks_nil,
        List.append_nil]
    · have hpklt : page < k := lt_of_le_of_ne hpk hne
      have hfetch : Conn.pageFetch conn page offset batchSize =
          .ok ((conn.rows.drop offset).take batchSize) := by
        simp [Conn.pageFetch, hfp, hne]
      rw [hfetch]
      dsimp only
      -- the current page is full: at least `(k - page) * batchSize` rows remain
      have hrestlen : (conn.rows.drop offset).length =
          conn.rows.length - offset := List.length_drop _ _
      have hroom : batchSize ≤ (conn.rows.drop offset).length := by
        rw [hrestlen, hoff]
        have : (page + 1) * batchSize ≤ k * batchSize :=
          Nat.mul_le_mul_right batchSize hpklt
        rw [Nat.add_mul, Nat.one_mul] at this
        omega
      have hbatchfull : ((conn.rows.drop offset).take batchSize).length =
          batchSize := by
        rw [List.length_take]
        omega
      have hbatchpos : 0 < ((conn.rows.drop offset).take batchSize).length := by
        omega
      rw [if_pos hbatchpos]
      have h1 : page + 1 ≤ k := hpklt
      have h2 : offset + batchSize = (page + 1) * batchSize := by
        rw [Nat.add_mul, Nat.one_mul, hoff]
      have h3 : (total + ((conn.rows.drop offset).take batchSize).length) +
          (conn.rows.drop (offset + batchSize)).length = conn.rows.length := by
        rw [hbatchfull, List.length_drop]
        rw [List.length_drop] at htot
        omega
      have h4 : (conn.rows.drop (offset + batchSize)).length < fuel := by
        rw [List.length_drop]
        rw [List.length_drop] at hfuel
        omega
      rw [ih (page + 1) (offset + batchSize)
        (total + ((conn.rows.drop offset).take batchSize).length)
        (delivered ++ [(conn.rows.drop offset).take batchSize]) h1 h2 h3 h4]
      -- fold the head batch back into the chunk list
      have hm : (k - page) * batchSize = batchSize + (k - (page + 1)) * batchSize := by
        have : k - page = (k - (page + 1)) + 1 := by omega
        rw [this, Nat.add_mul, Nat.one_mul, Nat.add_comm]
      have htakene : (conn.rows.drop offset).take ((k - page) * batchSize) ≠ [] := by
        intro h0
        have := congrArg List.length h0
        rw [List.length_take, List.length_nil] at this
        have hmpos : 0 < (k - page) * batchSize :=
          Nat.mul_pos (by omega) hbp
        omega
      rw [specChunks_cons batchSize hbs _ htakene]
      rw [List.take_take, List.drop_take]
      have hmin : batchSize ⊓ ((k - page) * batchSize) = batchSize := by
        have : batchSize ≤ (k - page) * batchSize := by
          have hone : 1 ≤ k - page := by omega
          calc batchSize = 1 * batchSize := (Nat.one_mul _).symm
          _ ≤ (k - page) * batchSize := Nat.mul_le_mul_right batchSize hone
        omega
      rw [hmin]
      have hsub : (k - page) * batchSize - batchSize = (k - (page + 1)) * batchSize := by
        omega
      rw [hsub, List.drop_drop]
      simp [List.append_assoc]

/-- C2: with batchSize > 0 and no failure, the extractor delivers exactly the
chunk decomposition of the source rows: each source row in exactly one batch,
batches in source order (their concatenation is the source row list), every
batch except possibly the last of exactly `batchSize` rows, and the returned
total equals the number of source rows, with a nil error. -/
theorem batching_paginated_chunks (rows : List α) (batchSize : Nat)
    (hbs : 0 < batchSize) :
    Batching ⟨rows, none, none⟩ batchSize =
      .result (specChunks batchSize rows) rows.length none ∧
    (specChunks batchSize rows).flatten = rows ∧
    (∀ c ∈ (specChunks batchSize rows).dropLast, c.length = batchSize) ∧
    (∀ c ∈ specChunks batchSize rows, c.length ≤ batchSize ∧ c ≠ []) := by
  have hbs0 : batchSize ≠ 0 := Nat.pos_iff_ne_zero.mp hbs
  refine ⟨?_, specChunks_flatten batchSize hbs0 rows,
    specChunks_full batchSize hbs0 rows, specChunks_bounds batchSize hbs0 rows⟩
  show batchingLoop ⟨rows, none, none⟩ batchSize (rows.length + 1) 0 0 0 [] = _
  have h := batchingLoop_no_fail (⟨rows, none, none⟩ : Conn α) batchSize hbs0 rfl
    (rows.length + 1) 0 0 0 []
    (by simp) (by simp)
  simpa using h

/-- Witness for C2, the spec's own scenario: batch size 2 and 5 source rows
yield batches of sizes [2, 2, 1] in source order and a reported total of 5. -/
theorem batching_paginated_chunks_witness :
    Batching (⟨[1, 2, 3, 4, 5], none, none⟩ : Conn Nat) 2 =
      .result [[1, 2], [3, 4], [5]] 5 none :=
  (batching_paginated_chunks (α := Nat) [1, 2, 3, 4, 5] 2 (by decide)).1.trans
    (by decide)

/-- C7: a failing count query, or a failing page query or row scan, makes the
extractor stop at once and return a non-nil error, while the batches already
delivered (the full pages before the failing one) stay delivered. -/
theorem batching_error_propagates (rows : List α) (batchSize k : Nat)
    (e : String) (hbs : 0 < batchSize) (hk : k * batchSize < rows.length) :
    Batching ⟨rows, none, some (k, e)⟩ batchSize =
      .result (specChunks batchSize (rows.take (k * batchSize))) 0 (some e) ∧
    (∀ (ce : String) (fp : Option (Nat × String)),
      Batching ⟨rows, some ce, fp⟩ batchSize = .result [] 0 (some ce)) := by
  have hbs0 : batchSize ≠ 0 := Nat.pos_iff_ne_zero.mp hbs
  constructor
  · show batchingLoop ⟨rows, none, some (k, e)⟩ batchSize (rows.length + 1)
      0 0 0 [] = _
    have h := batchingLoop_fail (⟨rows, none, some (k, e)⟩ : Conn α) batchSize
      hbs0 k e rfl hk (rows.length + 1) 0 0 0 []
      (Nat.zero_le k) (by simp) (by simp) (by simp)
    simpa using h
  · intro ce fp
    rfl

/-- Witness for C7: failure on the second page query after one full batch was
delivered. -/
theorem batching_error_propagates_witness :
    Batching (⟨[10, 20, 30, 40, 50], none, some (1, "scan failed")⟩ : Conn Nat) 2 =
      .result [[10, 20]] 0 (some "scan failed") :=
  (batching_error_propagates (α := Nat) [10, 20, 30, 40, 50] 2 1 "scan failed"
    (by decide) (by decide)).1.trans (by decide)

/-- Whenever the loop returns a non-nil error, the accompanying total is 0:
every error path in `Batching` executes `return 0, err`. -/
theorem batchingLoop_err_total (conn : Conn α) (batchSize : Nat) :
    ∀ (fuel page offset total : Nat) (delivered d : List (List α))
      (t : Nat) (e : String),
      batchingLoop conn batchSize fuel page offset total delivered =
        .result d t (some e) → t = 0 := by
  intro fuel
  induction fuel with
  | zero =>
    intro page offset total delivered d t e h
    rw [batchingLoop] at h
    cases h
  | succ fuel ih =>
    intro page offset total delivered d t e h
    rw [batchingLoop] at h
    by_cases hlt : total < conn.rows.length
    · rw [if_pos hlt] at h
      cases hpf : conn.pageFetch page offset batchSize with
      | error e2 =>
        rw [hpf] at h
        dsimp only at h
        cases h
        rfl
      | ok batch =>
        rw [hpf] at h
        dsimp only at h
        by_cases hb : 0 < batch.length
        · rw [if_pos hb] at h
          exact ih _ _ _ _ _ _ _ h
        · rw [if_neg hb] at h
          cases hfp : conn.failPage with
          | some ke =>
            obtain ⟨k, e2⟩ := ke
            rw [hfp] at h
            dsimp only at h
            by_cases hpk : page < k
            · rw [if_pos hpk] at h
              cases h
              rfl
            · rw [if_neg hpk] at h
              cases h
          | none =>
            rw [hfp] at h
            dsimp only at h
            cases h
    · rw [if_neg hlt] at h
      cases h

/-- C10: whenever the extractor returns a non-nil error, the total it returns
is 0, even when batches were already delivered before the error; a nonzero
total therefore only accompanies a nil error. -/
theorem batching_error_total_zero (conn : Conn α) (batchSize : Nat)
    (d : List (List α)) (t : Nat) (e : String)
    (h : Batching conn batchSize = .result d t (some e)) : t = 0 := by
  rw [Batching] at h
  cases hcf : conn.countFail with
  | some e2 =>
    rw [hcf] at h
    dsimp only at h
    cases h
    rfl
  | none =>
    rw [hcf] at h
    dsimp only at h
    exact batchingLoop_err_total conn batchSize _ _ _ _ _ _ _ _ h

/-- Witness for C10: an extraction that failed on its second page after
delivering a batch still reports total 0. -/
theorem batching_error_total_zero_witness : (0 : Nat) = 0 :=
  batching_error_total_zero (⟨[1, 2, 3, 4, 5], none, some (1, "timeout")⟩ : Conn Nat)
    2 [[1, 2]] 0 "timeout" (by decide)

/-- Witness for C3: both branches of `extraction_query_cursor_filter`
evaluated at concrete tables. -/
theorem extraction_query_cursor_filter_witness :
    buildQuery plainTable = "SELECT id, name FROM products FINAL" ∧
    buildQuery cursorTable =
      "SELECT id, updated_at FROM events FINAL WHERE updated_at > '2024-05-01 12:30:05'" :=
  ⟨((extraction_query_cursor_filter plainTable).1 (Or.inl rfl)).trans rfl,
   ((extraction_query_cursor_filter cursorTable).2 ⟨by decide, by decide⟩).trans rfl⟩

/-- Counterexample for C1: the `DO UPDATE SET` assignment list is built from
`GetDestinationColumns()`, so it contains an assignment for the primary-key
column `id` as well — it does not cover only the non-key columns. -/
theorem merge_update_covers_key_columns_cex :
    plainTable.GetPrimaryKey = ["id"] ∧
    "id = EXCLUDED.id" ∈ mergeAssignments plainTable ∧
    mergeAssignments plainTable = ["id = EXCLUDED.id", "name = EXCLUDED.name"] := by
  refine ⟨rfl, ?_, rfl⟩
  exact List.mem_cons_self _ _

/-- C1 (amended): for a table with a non-empty primary-key column set, the
merge executes `INSERT INTO <destination> SELECT DISTINCT ON (<pk>) * FROM
<staging> ON CONFLICT (<pk>) DO UPDATE SET <col> = EXCLUDED.<col>`, where the
update-set assignments cover every destination column — the key columns
included, not only the non-key columns. -/
theorem merge_upsert_statement_form (t : Table) (env : ExecEnv) (n : String)
    (hpk : t.GetPrimaryKey ≠ []) :
    (MoveTemporaryTable t env n).executed =
      "\n\t\tINSERT INTO " ++ t.destination ++
      "\n\t\tSELECT DISTINCT ON (" ++ String.intercalate ", " t.GetPrimaryKey ++
      ") * FROM " ++ n ++
      "\n\t\tON CONFLICT (" ++ String.intercalate ", " t.GetPrimaryKey ++
      ") DO UPDATE SET\n\t\t" ++
      String.intercalate ", "
        (t.GetDestinationColumns.map fun c => c ++ " = EXCLUDED." ++ c) ++
      ";\n\t" ∧
    (∀ c ∈ t.columns,
      c.destination ++ " = EXCLUDED." ++ c.destination ∈ mergeAssignments t) := by
  constructor
  · cases henv : env.execError <;>
      simp [MoveTemporaryTable, mergeQuery, mergeAssignments, henv]
  · intro c hc
    unfold mergeAssignments
    refine List.mem_map_of_mem _ ?_
    unfold Table.GetDestinationColumns
    exact List.mem_map_of_mem _ hc

/-- Witness for C1 (amended) at a concrete two-column table with primary key
`id`. -/
theorem merge_upsert_statement_form_witness :
    (MoveTemporaryTable plainTable ⟨none⟩ "products_pg_1a2b_tmp").executed =
      "\n\t\tINSERT INTO products_pg\n\t\tSELECT DISTINCT ON (id) * FROM products_pg_1a2b_tmp\n\t\tON CONFLICT (id) DO UPDATE SET\n\t\tid = EXCLUDED.id, name = EXCLUDED.name;\n\t" :=
  ((merge_upsert_statement_form plainTable ⟨none⟩ "products_pg_1a2b_tmp"
    (by decide)).1).trans (by decide)

/-- Counterexample for C6: with no primary key declared, the merge does not
degrade to a plain `INSERT INTO destination SELECT * FROM staging`; it still
executes the `DISTINCT ON` / `ON CONFLICT` statement, now with empty
parenthesised column lists. -/
theorem merge_no_pk_not_plain_cex :
    noPkTable.GetPrimaryKey = [] ∧
    (MoveTemporaryTable noPkTable ⟨none⟩ "logs_pg_3c4d_tmp").executed =
      "\n\t\tINSERT INTO logs_pg\n\t\tSELECT DISTINCT ON () * FROM logs_pg_3c4d_tmp\n\t\tON CONFLICT () DO UPDATE SET\n\t\tmsg = EXCLUDED.msg, level = EXCLUDED.level;\n\t" ∧
    (MoveTemporaryTable noPkTable ⟨none⟩ "logs_pg_3c4d_tmp").executed ≠
      "INSERT INTO logs_pg SELECT * FROM logs_pg_3c4d_tmp" := by
  refine ⟨rfl, by decide, by decide⟩

/-- C6 (amended): for a table with no primary-key column, the merge still
executes the upsert form with empty parenthesised primary-key lists
(`DISTINCT ON ()`, `ON CONFLICT ()`); there is no append-only fallback. -/
theorem merge_no_pk_form (t : Table) (env : ExecEnv) (n : String)
    (hpk : t.GetPrimaryKey = []) :
    (MoveTemporaryTable t env n).executed =
      "\n\t\tINSERT INTO " ++ t.destination ++
      "\n\t\tSELECT DISTINCT ON (" ++ "" ++ ") * FROM " ++ n ++
      "\n\t\tON CONFLICT (" ++ "" ++ ") DO UPDATE SET\n\t\t" ++
      String.intercalate ", " (mergeAssignments t) ++ ";\n\t" := by
  have h0 : String.intercalate ", " ([] : List String) = "" := rfl
  cases henv : env.execError <;>
    simp [MoveTemporaryTable, mergeQuery, henv, hpk, h0]

/-- Witness for C6 (amended) at a concrete table with no primary key. -/
theorem merge_no_pk_form_witness :
    (MoveTemporaryTable noPkTable ⟨none⟩ "logs_pg_5e6f_tmp").executed =
      "\n\t\tINSERT INTO logs_pg\n\t\tSELECT DISTINCT ON () * FROM logs_pg_5e6f_tmp\n\t\tON CONFLICT () DO UPDATE SET\n\t\tmsg = EXCLUDED.msg, level = EXCLUDED.level;\n\t" :=
  (merge_no_pk_form noPkTable ⟨none⟩ "logs_pg_5e6f_tmp" (by decide)).trans
    (by decide)

/-- Counterexample for C8: when executing the merge statement fails, the
function logs the failure but still returns nil — it does not return a
non-nil error to its caller. -/
theorem merge_returns_nil_on_failure_cex :
    (MoveTemporaryTable plainTable ⟨some "duplicate key value"⟩
        "products_pg_7a8b_tmp").returned = none ∧
    (MoveTemporaryTable plainTable ⟨some "duplicate key value"⟩
        "products_pg_7a8b_tmp").loggedErrors =
      ["Failed to move temporary table: duplicate key value"] :=
  ⟨rfl, rfl⟩

/-- C8 (amended): `MoveTemporaryTable` always returns nil; a failed statement
execution is logged but never propagated to the caller. -/
theorem merge_always_returns_nil (t : Table) (env : ExecEnv) (n : String) :
    (MoveTemporaryTable t env n).returned = none ∧
    (∀ e, env.execError = some e →
      (MoveTemporaryTable t env n).loggedErrors =
        ["Failed to move temporary table: " ++ e]) ∧
    (env.execError = none → (MoveTemporaryTable t env n).loggedErrors = []) := by
  refine ⟨?_, ?_, ?_⟩
  · cases henv : env.execError <;> simp [MoveTemporaryTable, henv]
  · intro e henv
    simp [MoveTemporaryTable, henv]
  · intro henv
    simp [MoveTemporaryTable, henv]

/-- Witness for C8 (amended): a failing execution still yields a nil return,
with the failure logged. -/
theorem merge_always_returns_nil_witness :
    (MoveTemporaryTable plainTable ⟨some "relation does not exist"⟩
        "products_pg_9c0d_tmp").returned = none ∧
    (MoveTemporaryTable plainTable ⟨some "relation does not exist"⟩
        "products_pg_9c0d_tmp").loggedErrors =
      ["Failed to move temporary table: relation does not exist"] :=
  ⟨(merge_always_returns_nil plainTable ⟨some "relation does not exist"⟩
      "products_pg_9c0d_tmp").1,
   (merge_always_returns_nil plainTable ⟨some "relation does not exist"⟩
      "products_pg_9c0d_tmp").2.1 _ rfl⟩

/-- Counterexample for C5: a bulk-copy failure does not cause the batch's
merge step to be skipped — the worker logs the failure and still calls the
merge. -/
theorem bulk_copy_failure_still_merges_cex :
    (processBatch plainTable copyFailBatchEnv "products_pg_tmp").copyAttempted = true ∧
    (processBatch plainTable copyFailBatchEnv "products_pg_tmp").mergeAttempted = true ∧
    (processBatch plainTable copyFailBatchEnv "products_pg_tmp").loggedErrors =
      ["Failed to insert batch: broken pipe"] := by
  refine ⟨rfl, rfl, rfl⟩

/-- C5 (amended): a staging-table creation failure aborts the batch before
any rows are loaded and before the merge; a bulk-copy failure is logged but
the merge step still runs; and every batch is processed independently of the
others' outcomes. -/
theorem batch_failure_isolation (t : Table) (n : String) (env : BatchEnv)
    (envs : List BatchEnv) :
    (∀ e, env.acquireError = none → env.makeTempError = some e →
      (processBatch t env n).copyAttempted = false ∧
      (processBatch t env n).mergeAttempted = false ∧
      (processBatch t env n).loggedErrors =
        ["Failed to make temporary table: " ++ e]) ∧
    (env.acquireError = none → env.makeTempError = none →
      (processBatch t env n).copyAttempted = true ∧
      (processBatch t env n).mergeAttempted = true ∧
      (∀ e, env.copyError = some e →
        "Failed to insert batch: " ++ e ∈ (processBatch t env n).loggedErrors)) ∧
    (runBatches t envs n).length = envs.length := by
  refine ⟨?_, ?_, ?_⟩
  · intro e h1 h2
    simp [processBatch, h1, h2]
  · intro h1 h2
    refine ⟨by simp [processBatch, h1, h2], by simp [processBatch, h1, h2], ?_⟩
    intro e h3
    simp [processBatch, h1, h2, h3]
  · simp [runBatches]

/-- Witness for C5 (amended): staging-creation failure aborts before the
copy; copy failure still reaches the merge. -/
theorem batch_failure_isolation_witness :
    (processBatch plainTable makeTempFailBatchEnv "products_pg_tmp").copyAttempted = false ∧
    (processBatch plainTable copyFailBatchEnv "products_pg_tmp").mergeAttempted = true :=
  ⟨((batch_failure_isolation plainTable "products_pg_tmp" makeTempFailBatchEnv
      []).1 "out of shared memory" rfl rfl).1,
   ((batch_failure_isolation plainTable "products_pg_tmp" copyFailBatchEnv
      []).2.1 rfl rfl).2.1⟩

/-- Counterexample for C4: an extraction failure does not leave the cursor
unchanged.  The extractor's error is only logged inside the background
goroutine, `SynchronizeTable` still returns nil, and the cursor is advanced
to the wall clock anyway. -/
theorem cursor_advances_despite_extract_failure_cex :
    extractFailEnv.extractError = some "connection timeout" ∧
    (SynchronizeTable cursorTable extractFailEnv).returned = none ∧
    (SynchronizeTable cursorTable extractFailEnv).logged =
      ["Failed to batch: connection timeout"] ∧
    runTableStep cursorTable extractFailEnv = ⟨2024, 6, 1, 9, 0, 0⟩ ∧
    cursorTable.cursor.lastSync ≠ (⟨2024, 6, 1, 9, 0, 0⟩ : GoTime) := by
  refine ⟨rfl, rfl, rfl, rfl, by decide⟩

/-- C4 (amended): only a schema-creation failure aborts the table run and
leaves the stored cursor unchanged (the run then continues to the next
table); an extraction failure is merely logged, so whenever schema creation
succeeds and a cursor column is configured the cursor is advanced to the
wall-clock time at table-run completion, not to the maximum observed
cursor-column value; and every configured table is processed. -/
theorem cursor_update_semantics (t : Table) (env : TableRunEnv) :
    (∀ e, env.createTableError = some e →
      runTableStep t env = t.cursor.lastSync) ∧
    (env.createTableError = none → t.cursor.column ≠ "" →
      runTableStep t env = env.now) ∧
    (env.createTableError = none → t.cursor.column = "" →
      runTableStep t env = t.cursor.lastSync) ∧
    (∀ (tables : List Table) (envs : List TableRunEnv),
      (mainLoop tables envs).length = min tables.length envs.length) := by
  have hfst : env.createTableError = none →
      (CreatePostgresTable t env).1 = none := by
    intro h
    unfold CreatePostgresTable
    rw [h]
    cases hp : env.addPrimaryKeyError
    · rfl
    · dsimp only
      split <;> rfl
  refine ⟨?_, ?_, ?_, ?_⟩
  · intro e he
    have hc : (CreatePostgresTable t env).1 = some e := by
      unfold CreatePostgresTable
      rw [he]
    simp [runTableStep, SynchronizeTable, hc]
  · intro h1 h2
    simp [runTableStep, SynchronizeTable, hfst h1, h2]
  · intro h1 h2
    simp [runTableStep, SynchronizeTable, hfst h1, h2]
  · intro tables envs
    simp [mainLoop]

/-- Witness for C4 (amended): a schema failure preserves the cursor; a
successful run advances it to the injected wall-clock time. -/
theorem cursor_update_semantics_witness :
    runTableStep cursorTable schemaFailEnv = ⟨2024, 5, 1, 12, 30, 5⟩ ∧
    runTableStep cursorTable successEnv = ⟨2024, 6, 1, 9, 0, 0⟩ :=
  ⟨((cursor_update_semantics cursorTable schemaFailEnv).1 "permission denied"
      rfl).trans rfl,
   ((cursor_update_semantics cursorTable successEnv).2.1 rfl
      (by decide)).trans rfl⟩

/-- C9: the inferer returns one prototype per column, and it is exactly what
the specification describes: the inner type's zero value for a
pointer/nullable column, an empty slice for a slice column, an empty map for
a map column, and the scalar zero value otherwise. -/
theorem getScannerValues_matches_spec (columnTypes : List GoType) :
    GetScannerValues columnTypes = columnTypes.map protoSpec := by
  induction columnTypes with
  | nil => rfl
  | cons t ts ih =>
    simp only [GetScannerValues, List.map_cons] at ih ⊢
    rw [ih]
    congr 1
    cases t <;> rfl

end Replication
